import Mathlib

/-!
Shallow embedding of the `shadcn-admin-go` service layer.

The relational store is modelled as a Lean list of row structures; every
service operation is a pure function from the store (plus the request) to
the new store and the response.  Go `int` values are modelled as `Int`
with Go's truncating division (`Int.tdiv` / `Int.tmod`); timestamps are
modelled as `Nat`; ogen `OptT` values are modelled as `Option`; Go's
`error` chains are modelled by the inductive `GoErr`.
-/

/- ===================== rows (internal/models/models.go) ===================== -/

/-- Row of the `users` table (`models.User`). -/
structure UserRow where
  id : String
  firstName : String
  lastName : String
  username : String
  email : String
  password : String
  phoneNumber : String
  status : String
  role : String
  createdAt : Nat
  updatedAt : Nat
deriving Repr, DecidableEq

/-- Row of the `tasks` table (`models.Task`). -/
structure TaskRow where
  id : String
  title : String
  status : String
  label : String
  priority : String
  assignee : String
  description : String
  dueDate : Option Nat
  createdAt : Nat
  updatedAt : Nat
deriving Repr, DecidableEq

/-- Row of the `apps` table (`models.App`). -/
structure AppRow where
  id : String
  name : String
  desc : String
  logo : String
  connected : Bool
  createdAt : Nat
  updatedAt : Nat
deriving Repr, DecidableEq

/-- Row of the `chat_messages` table (`models.ChatMessage`). -/
structure ChatMessageRow where
  id : Nat
  chatID : String
  sender : String
  message : String
  timestamp : Nat
deriving Repr, DecidableEq

/-- Row of the `chat_conversations` table (`models.ChatConversation`),
with its eagerly loaded messages. -/
structure ChatConversationRow where
  id : String
  username : String
  fullName : String
  title : String
  profile : String
  messages : List ChatMessageRow
deriving Repr, DecidableEq

/- ===================== API response shapes (api/gen/admin) ===================== -/

/-- Response shape `api.User`; optional fields are ogen `Opt` values. -/
structure ApiUser where
  id : String
  firstName : String
  lastName : String
  username : String
  email : String
  status : String
  role : String
  phoneNumber : Option String
  createdAt : Option Nat
  updatedAt : Option Nat
deriving Repr, DecidableEq

/-- Response shape `api.Task`. -/
structure ApiTask where
  id : String
  title : String
  status : String
  label : String
  priority : String
  assignee : Option String
  description : Option String
  dueDate : Option Nat
  createdAt : Option Nat
  updatedAt : Option Nat
deriving Repr, DecidableEq

/-- Response shape `api.App`. -/
structure ApiApp where
  id : String
  name : String
  desc : String
  logo : Option String
  connected : Bool
deriving Repr, DecidableEq

/-- Response shape `api.ChatMessage`. -/
structure ApiChatMessage where
  sender : String
  message : String
  timestamp : Nat
deriving Repr, DecidableEq

/-- Response shape `api.ChatConversation`. -/
structure ApiChatConversation where
  id : String
  username : String
  fullName : String
  title : Option String
  profile : Option String
  messages : List ApiChatMessage
deriving Repr, DecidableEq

/- ===================== entity mappers ===================== -/

/-- `userToAPI` (services/user_service.go): converts a stored user row to
the response shape; an empty stored phone number is left as the unset
optional, a non-empty one is copied. -/
def userToAPI (u : UserRow) : ApiUser :=
  { id := u.id
    firstName := u.firstName
    lastName := u.lastName
    username := u.username
    email := u.email
    status := u.status
    role := u.role
    createdAt := some u.createdAt
    updatedAt := some u.updatedAt
    phoneNumber := if u.phoneNumber ≠ "" then some u.phoneNumber else none }

/-- `taskToAPI` (services/dashboard_methods.go): empty assignee/description
stay unset, a `nil` due date stays unset. -/
def taskToAPI (t : TaskRow) : ApiTask :=
  { id := t.id
    title := t.title
    status := t.status
    label := t.label
    priority := t.priority
    createdAt := some t.createdAt
    updatedAt := some t.updatedAt
    assignee := if t.assignee ≠ "" then some t.assignee else none
    description := if t.description ≠ "" then some t.description else none
    dueDate := match t.dueDate with
      | some d => some d
      | none => none }

/-- `appToAPI` (services/app_service.go): empty logo stays unset. -/
def appToAPI (a : AppRow) : ApiApp :=
  { id := a.id
    name := a.name
    desc := a.desc
    connected := a.connected
    logo := if a.logo ≠ "" then some a.logo else none }

/-- `chatConversationToAPI` (services/chat_service.go): messages are copied
verbatim; empty title/profile stay unset. -/
def chatConversationToAPI (c : ChatConversationRow) : ApiChatConversation :=
  { id := c.id
    username := c.username
    fullName := c.fullName
    messages := c.messages.map (fun m =>
      { sender := m.sender, message := m.message, timestamp := m.timestamp })
    title := if c.title ≠ "" then some c.title else none
    profile := if c.profile ≠ "" then some c.profile else none }

/- ===================== query building blocks ===================== -/

/-- Ogen `Opt.Or`: the supplied value when present, the default otherwise. -/
def optOr (o : Option Int) (d : Int) : Int := o.getD d

/-- Lower-cased character content of a string (the case folding performed
by the SQL `ILIKE` operator). -/
def lowerChars (s : String) : List Char := s.data.map Char.toLower

/-- Semantics of the SQL predicate `col ILIKE '%' || pat || '%'` (for a
pattern with no wildcard characters): case-insensitive substring match. -/
def ilikeContains (pat hay : String) : Bool :=
  decide (lowerChars pat <:+: lowerChars hay)

/-- Go `strings.Contains s substr`. -/
def strContains (s substr : String) : Bool :=
  decide (substr.data <:+: s.data)

/-- Conjunction of all `Where` clauses accumulated on a query. -/
def matchesAll {α : Type} (filters : List (α → Bool)) (x : α) : Bool :=
  filters.all (fun f => f x)

/-- Semantics of the ORM's `Offset`/`Limit` pair as emitted into SQL: a
positive offset skips rows, a nonnegative limit caps the row count; a
non-positive offset and a negative limit emit no clause. -/
def applyOffsetLimit (rows : List α) (offset limit : Int) : List α :=
  let afterOffset := if 0 < offset then rows.drop offset.toNat else rows
  if 0 ≤ limit then afterOffset.take limit.toNat else afterOffset

/-- Insertion into a list sorted by the boolean relation `le`. -/
def insertSorted (le : α → α → Bool) (x : α) : List α → List α
  | [] => [x]
  | y :: ys => if le x y then x :: y :: ys else y :: insertSorted le x ys

/-- Insertion sort by the boolean relation `le` (semantics of `ORDER BY`). -/
def sortByBool (le : α → α → Bool) : List α → List α
  | [] => []
  | x :: xs => insertSorted le x (sortByBool le xs)

/- ===================== user listing (user_service.go List) ===================== -/

/-- Query parameters `api.ListUsersParams`. -/
structure ListUsersParams where
  page : Option Int
  pageSize : Option Int
  status : List String
  role : List String
  username : Option String
deriving Repr, DecidableEq

/-- Pagination metadata `api.PaginationMeta`. -/
structure PaginationMeta where
  page : Int
  pageSize : Int
  total : Int
  totalPages : Int
deriving Repr, DecidableEq

/-- Response `api.UserListResponse`. -/
structure UserListResponse where
  data : List ApiUser
  meta : PaginationMeta
deriving Repr, DecidableEq

/-- The `Where` clauses accumulated by `userServiceImpl.List`: membership
tests for the status and role sets when non-empty, a case-insensitive
substring match on `username` when present and non-empty. -/
def userQueryFilters (p : ListUsersParams) : List (UserRow → Bool) :=
  (if p.status.length > 0 then [fun u => p.status.contains u.status] else []) ++
  (if p.role.length > 0 then [fun u => p.role.contains u.role] else []) ++
  (match p.username with
   | some username => if username ≠ "" then [fun u => ilikeContains username u.username] else []
   | none => [])

/-- `userServiceImpl.List`: filter, count, page with
`offset = (page-1)*pageSize` and `limit = pageSize`, map rows, and compute
`totalPages`.  Go's integer division by zero is a runtime panic, modelled
as `none`. -/
def listUsers (db : List UserRow) (params : ListUsersParams) : Option UserListResponse :=
  let page := optOr params.page 1
  let pageSize := optOr params.pageSize 10
  let offset := (page - 1) * pageSize
  let filtered := db.filter (matchesAll (userQueryFilters params))
  let total : Int := filtered.length
  let users := applyOffsetLimit filtered offset pageSize
  let data := users.map userToAPI
  if pageSize = 0 then none
  else
    let totalPages := total.tdiv pageSize + (if 0 < total.tmod pageSize then 1 else 0)
    some { data := data
           meta := { page := page, pageSize := pageSize, total := total,
                     totalPages := totalPages } }

/- ===================== task listing (dashboard_methods.go ListTasks) ===================== -/

/-- Query parameters `api.ListTasksParams`. -/
structure ListTasksParams where
  page : Option Int
  pageSize : Option Int
  status : List String
  priority : List String
  filter : Option String
deriving Repr, DecidableEq

/-- Response `api.TaskListResponse`. -/
structure TaskListResponse where
  data : List ApiTask
  meta : PaginationMeta
deriving Repr, DecidableEq

/-- The `Where` clauses accumulated by `AdminService.ListTasks`: membership
tests for status and priority sets when non-empty, and a case-insensitive
substring match against `title` or `id` when present and non-empty. -/
def taskQueryFilters (p : ListTasksParams) : List (TaskRow → Bool) :=
  (if p.status.length > 0 then [fun t => p.status.contains t.status] else []) ++
  (if p.priority.length > 0 then [fun t => p.priority.contains t.priority] else []) ++
  (match p.filter with
   | some f => if f ≠ "" then [fun t => ilikeContains f t.title || ilikeContains f t.id] else []
   | none => [])

/-- Comparison used by the task page query's `ORDER BY created_at DESC`. -/
def createdDescLe (a b : TaskRow) : Bool := b.createdAt ≤ a.createdAt

/-- `AdminService.ListTasks`: like `listUsers`, with the page query ordered
by creation time descending. -/
def listTasks (db : List TaskRow) (params : ListTasksParams) : Option TaskListResponse :=
  let page := optOr params.page 1
  let pageSize := optOr params.pageSize 10
  let offset := (page - 1) * pageSize
  let filtered := db.filter (matchesAll (taskQueryFilters params))
  let total : Int := filtered.length
  let tasks := applyOffsetLimit (sortByBool createdDescLe filtered) offset pageSize
  let data := tasks.map taskToAPI
  if pageSize = 0 then none
  else
    let totalPages := total.tdiv pageSize + (if 0 < total.tmod pageSize then 1 else 0)
    some { data := data
           meta := { page := page, pageSize := pageSize, total := total,
                     totalPages := totalPages } }

/- ===================== app listing (app_service.go List) ===================== -/

/-- The `type` query parameter of the app list endpoint. -/
inductive ListAppsType
  | all
  | connected
  | notConnected
deriving Repr, DecidableEq

/-- Query parameters `api.ListAppsParams` (sort direction omitted: it does
not affect which rows are selected). -/
structure ListAppsParams where
  type : Option ListAppsType
  filter : Option String
deriving Repr, DecidableEq

/-- The `Where` clauses accumulated by `appServiceImpl.List`: a connected
flag test for the `connected`/`notConnected` type filter (none for `all`),
and a case-insensitive substring match on `name` when present and
non-empty. -/
def appQueryFilters (p : ListAppsParams) : List (AppRow → Bool) :=
  (match p.type with
   | some .connected => [fun a => a.connected == true]
   | some .notConnected => [fun a => a.connected == false]
   | some .all => []
   | none => []) ++
  (match p.filter with
   | some f => if f ≠ "" then [fun a => ilikeContains f a.name] else []
   | none => [])

/-- The set of connected-flag values admitted by a `type` filter value. -/
def connectedSetOf : ListAppsType → List Bool
  | .all => [true, false]
  | .connected => [true]
  | .notConnected => [false]

/- ===================== Go error chains ===================== -/

/-- Go `error` values as they occur in this program: the two context
errors, `errors.New` sentinels (identified by their creation-site message),
other leaf errors (driver errors etc.), and `fmt.Errorf("...: %w", err)`
wrappers. -/
inductive GoErr
  | canceled
  | deadlineExceeded
  | sentinel (msg : String)
  | other (msg : String)
  | wrap (outerMsg : String) (inner : GoErr)
deriving Repr, DecidableEq

/-- Go `err.Error()`. -/
def errMsg : GoErr → String
  | .canceled => "context canceled"
  | .deadlineExceeded => "context deadline exceeded"
  | .sentinel msg => msg
  | .other msg => msg
  | .wrap outerMsg inner => outerMsg ++ errMsg inner

/-- Identity comparison of two error values (Go `==` on errors; wrappers
are fresh values, never identical to a sentinel). -/
def errBaseIs : GoErr → GoErr → Bool
  | .canceled, .canceled => true
  | .deadlineExceeded, .deadlineExceeded => true
  | .sentinel a, .sentinel b => a == b
  | .other a, .other b => a == b
  | _, _ => false

/-- Go `errors.Is`: identity at each link of the wrap chain. -/
def errIs : GoErr → GoErr → Bool
  | .wrap outerMsg inner, target => errBaseIs (.wrap outerMsg inner) target || errIs inner target
  | e, target => errBaseIs e target

/-- Leaf of a wrap chain. -/
def errLeaf : GoErr → GoErr
  | .wrap _ inner => errLeaf inner
  | e => e

/- ===================== service sentinel errors (services/errors.go) ===================== -/

def ErrUserNotFound : GoErr := .sentinel "user not found"
def ErrTaskNotFound : GoErr := .sentinel "task not found"
def ErrAppNotFound : GoErr := .sentinel "app not found"
def ErrChatNotFound : GoErr := .sentinel "chat not found"
def ErrInvalidCredentials : GoErr := .sentinel "invalid credentials"
def ErrUnauthorized : GoErr := .sentinel "unauthorized"
def ErrDuplicateEmail : GoErr := .sentinel "email already exists"
def ErrDuplicateUsername : GoErr := .sentinel "username already exists"

/- ===================== error codes (handlers/error_codes.go) ===================== -/

/-- `handlers.ErrorCode`. -/
structure ErrorCode where
  code : String
  message : String
  httpStatus : Nat
  serviceErr : Option GoErr
deriving Repr, DecidableEq

/-- Fields of the `errorCodes` singleton. -/
structure ErrorCodeTable where
  userNotFound : ErrorCode
  taskNotFound : ErrorCode
  appNotFound : ErrorCode
  chatNotFound : ErrorCode
  invalidCredentials : ErrorCode
  unauthorized : ErrorCode
  duplicateEmail : ErrorCode
  duplicateUsername : ErrorCode
  badRequest : ErrorCode
  internalError : ErrorCode
  requestCancelled : ErrorCode
  requestTimeout : ErrorCode
deriving Repr, DecidableEq

/-- The `errorCodes` singleton (exposed as `handlers.Errors`). -/
def Errors : ErrorCodeTable :=
  { userNotFound := ⟨"USER_NOT_FOUND", "User not found", 404, some ErrUserNotFound⟩
    taskNotFound := ⟨"TASK_NOT_FOUND", "Task not found", 404, some ErrTaskNotFound⟩
    appNotFound := ⟨"APP_NOT_FOUND", "App not found", 404, some ErrAppNotFound⟩
    chatNotFound := ⟨"CHAT_NOT_FOUND", "Chat not found", 404, some ErrChatNotFound⟩
    invalidCredentials := ⟨"INVALID_CREDENTIALS", "Invalid email or password", 401,
      some ErrInvalidCredentials⟩
    unauthorized := ⟨"UNAUTHORIZED", "Authentication required", 401, some ErrUnauthorized⟩
    duplicateEmail := ⟨"DUPLICATE_EMAIL", "Email already exists", 409, some ErrDuplicateEmail⟩
    duplicateUsername := ⟨"DUPLICATE_USERNAME", "Username already exists", 409,
      some ErrDuplicateUsername⟩
    badRequest := ⟨"BAD_REQUEST", "Invalid request", 400, none⟩
    internalError := ⟨"INTERNAL_ERROR", "An internal error occurred", 500, none⟩
    requestCancelled := ⟨"REQUEST_CANCELLED", "Request was cancelled", 499, none⟩
    requestTimeout := ⟨"REQUEST_TIMEOUT", "Request timed out", 504, none⟩ }

/-- `handlers.AllErrors`: the scan order used by `mapServiceError`. -/
def AllErrors : List ErrorCode :=
  [Errors.userNotFound, Errors.taskNotFound, Errors.appNotFound, Errors.chatNotFound,
   Errors.invalidCredentials, Errors.unauthorized, Errors.duplicateEmail,
   Errors.duplicateUsername, Errors.badRequest, Errors.internalError,
   Errors.requestCancelled, Errors.requestTimeout]

/-- `handlers.mapServiceError`: context errors first, then the first table
entry whose backing sentinel matches the chain, else the internal error. -/
def mapServiceError (err : GoErr) : ErrorCode :=
  if errIs err .canceled then Errors.requestCancelled
  else if errIs err .deadlineExceeded then Errors.requestTimeout
  else
    match AllErrors.find? (fun ec =>
        match ec.serviceErr with
        | some se => errIs err se
        | none => false) with
    | some ec => ec
    | none => Errors.internalError

/-- Observable output of `handlers.OgenErrorHandler`: HTTP status plus the
encoded `api.ErrorResponse` body. -/
structure ErrorHttpResponse where
  httpStatus : Nat
  code : String
  message : String
  details : Option String
deriving Repr, DecidableEq

/-- `handlers.OgenErrorHandler` for a non-nil error: status and body come
from the mapped entry; the raw error text goes into `details` only when
`hideErrorDetails` is off. -/
def ogenErrorHandler (hideErrorDetails : Bool) (err : GoErr) : ErrorHttpResponse :=
  let errCode := mapServiceError err
  { httpStatus := errCode.httpStatus
    code := errCode.code
    message := errCode.message
    details := if !hideErrorDetails then some (errMsg err) else none }

/-- Classification described by the spec for §4.4/§7, stated directly on
the leaf of the error chain: cancellation first, then timeout, then the
matching sentinel's table entry, else the internal-error entry.  Written
from the spec's words, to be compared with `mapServiceError`. -/
def specErrorEntry (err : GoErr) : ErrorCode :=
  match errLeaf err with
  | .canceled => Errors.requestCancelled
  | .deadlineExceeded => Errors.requestTimeout
  | .sentinel m =>
      if m = "user not found" then Errors.userNotFound
      else if m = "task not found" then Errors.taskNotFound
      else if m = "app not found" then Errors.appNotFound
      else if m = "chat not found" then Errors.chatNotFound
      else if m = "invalid credentials" then Errors.invalidCredentials
      else if m = "unauthorized" then Errors.unauthorized
      else if m = "email already exists" then Errors.duplicateEmail
      else if m = "username already exists" then Errors.duplicateUsername
      else Errors.internalError
  | _ => Errors.internalError

/- ===================== task id generation (models.Task hooks) ===================== -/

/-- Digit characters produced by `padNumber`'s loop, least significant
digit appended last (`s = string('0'+num%10) + s` per iteration). -/
def padNumberChars : Nat → Nat → List Char
  | _, 0 => []
  | num, width + 1 => padNumberChars (num / 10) width ++ [Char.ofNat (48 + num % 10)]

/-- `padNumber` (internal/models/models.go). -/
def padNumber (num width : Nat) : String := String.mk (padNumberChars num width)

/-- `generateTaskID` (internal/models/models.go). -/
def generateTaskID (num : Nat) : String := "TASK-" ++ padNumber num 4

/-- `Task.BeforeCreate`: when the row has no id, assign
`generateTaskID (count + 1)` where `count` is the current row count. -/
def beforeCreate (db : List TaskRow) (t : TaskRow) : TaskRow :=
  if t.id = "" then { t with id := generateTaskID (db.length + 1) } else t

/-- Decimal value of a digit string. -/
def decValue (ds : List Char) : Nat :=
  ds.foldl (fun acc c => 10 * acc + (c.toNat - 48)) 0

/- ===================== task commands (dashboard_methods.go) ===================== -/

/-- Request body `api.CreateTaskRequest`. -/
structure CreateTaskRequest where
  title : String
  status : String
  label : String
  priority : String
  assignee : Option String
  description : Option String
  dueDate : Option Nat
deriving Repr, DecidableEq

/-- `AdminService.CreateTask`: build the row (id empty, so `BeforeCreate`
assigns one), insert it, and return the mapped row.  `now` models the
store-maintained creation/update timestamps. -/
def createTask (db : List TaskRow) (req : CreateTaskRequest) (now : Nat) :
    List TaskRow × ApiTask :=
  let task : TaskRow :=
    { id := ""
      title := req.title
      status := req.status
      label := req.label
      priority := req.priority
      assignee := req.assignee.getD ""
      description := req.description.getD ""
      dueDate := req.dueDate
      createdAt := now
      updatedAt := now }
  let task := beforeCreate db task
  (db ++ [task], taskToAPI task)

/-- Request body `api.UpdateTaskRequest`: every field optional. -/
structure UpdateTaskRequest where
  title : Option String
  status : Option String
  label : Option String
  priority : Option String
  assignee : Option String
  description : Option String
  dueDate : Option Nat
deriving Repr, DecidableEq

/-- Whether `UpdateTask` puts at least one column into its `updates` map. -/
def taskUpdatesPresent (req : UpdateTaskRequest) : Bool :=
  req.title.isSome || req.status.isSome || req.label.isSome || req.priority.isSome ||
  req.assignee.isSome || req.description.isSome || req.dueDate.isSome

/-- Column writes performed by `UpdateTask`'s `Updates(updates)` call on one
row: each field present in the request overwrites its column, and the store
refreshes `updated_at`; an empty map performs no write at all. -/
def applyTaskUpdates (req : UpdateTaskRequest) (now : Nat) (t : TaskRow) : TaskRow :=
  if taskUpdatesPresent req then
    { t with
      title := req.title.getD t.title
      status := req.status.getD t.status
      label := req.label.getD t.label
      priority := req.priority.getD t.priority
      assignee := req.assignee.getD t.assignee
      description := req.description.getD t.description
      dueDate := match req.dueDate with
        | some d => some d
        | none => t.dueDate
      updatedAt := now }
  else t

/-- Outcome of `UpdateTask` (`api.UpdateTaskRes` or a propagated error). -/
inductive UpdateTaskRes
  | ok (task : ApiTask)
  | notFound
  | failure (e : GoErr)
deriving Repr, DecidableEq

/-- `AdminService.UpdateTask`: load by id (not-found when absent), apply the
present fields, reload by id and re-map. -/
def updateTask (db : List TaskRow) (taskId : String) (req : UpdateTaskRequest) (now : Nat) :
    List TaskRow × UpdateTaskRes :=
  match db.find? (fun t => t.id == taskId) with
  | none => (db, .notFound)
  | some _ =>
    let db' := db.map (fun t => if t.id == taskId then applyTaskUpdates req now t else t)
    match db'.find? (fun t => t.id == taskId) with
    | some t' => (db', .ok (taskToAPI t'))
    | none => (db', .failure (.wrap "reload task: " (.other "record not found")))

/-- Outcome of a delete operation. -/
inductive DeleteRes
  | noContent
  | notFound
deriving Repr, DecidableEq

/-- `AdminService.DeleteTask`: delete by id; not-found when zero rows were
affected, success-with-no-content otherwise. -/
def deleteTask (db : List TaskRow) (taskId : String) : List TaskRow × DeleteRes :=
  let rowsAffected := (db.filter (fun t => t.id == taskId)).length
  let db' := db.filter (fun t => !(t.id == taskId))
  if rowsAffected = 0 then (db, .notFound) else (db', .noContent)

/- ===================== user commands (user_service.go) ===================== -/

/-- Local part of the email (`strings.Split(email, "@")[0]`). -/
def usernameFromEmail (email : String) : String :=
  String.mk (email.data.takeWhile (fun c => c ≠ '@'))

/-- Stand-in for the bcrypt digest of a password (the digest's content is
never inspected by the code under verification). -/
def bcryptHash (password : String) : String := "bcrypt$" ++ password

/-- Postgres error text for a unique-index violation. -/
def duplicateKeyMsg (idx : String) : String :=
  "ERROR: duplicate key value violates unique constraint \x22" ++ idx ++ "\x22 (SQLSTATE 23505)"

/-- Store-level insert honouring the `uniqueIndex` tags on
`models.User.Username` and `models.User.Email`: a clash on either index is
rejected with a Postgres duplicate-key error. -/
def insertUserRow (db : List UserRow) (u : UserRow) : Except GoErr (List UserRow) :=
  if db.any (fun v => v.username == u.username) then
    .error (.other (duplicateKeyMsg "idx_users_username"))
  else if db.any (fun v => v.email == u.email) then
    .error (.other (duplicateKeyMsg "idx_users_email"))
  else .ok (db ++ [u])

/-- `isDuplicateKeyError` (services/user_service.go). -/
def isDuplicateKeyError (err : GoErr) : Bool :=
  strContains (errMsg err) "duplicate key" || strContains (errMsg err) "UNIQUE constraint"

/-- Request body `api.CreateUserRequest`. -/
structure CreateUserRequest where
  firstName : String
  lastName : String
  email : String
  phoneNumber : Option String
  role : String
deriving Repr, DecidableEq

/-- `userServiceImpl.Create`: derive the username from the email's local
part, build the row (status `active`), insert; a duplicate-key failure is
reported as `ErrDuplicateEmail`.  `newId` models the store-generated UUID
and `now` the store-maintained timestamps. -/
def createUser (db : List UserRow) (req : CreateUserRequest) (newId : String) (now : Nat) :
    List UserRow × Except GoErr ApiUser :=
  let username := usernameFromEmail req.email
  let user : UserRow :=
    { id := newId
      firstName := req.firstName
      lastName := req.lastName
      username := username
      email := req.email
      password := bcryptHash "changeme123"
      phoneNumber := req.phoneNumber.getD ""
      status := "active"
      role := req.role
      createdAt := now
      updatedAt := now }
  match insertUserRow db user with
  | .error e =>
      if isDuplicateKeyError e then (db, .error (.wrap "create user: " ErrDuplicateEmail))
      else (db, .error (.wrap "create user: " e))
  | .ok db' => (db', .ok (userToAPI user))

/-- Request body `api.InviteUserRequest`. -/
structure InviteUserRequest where
  email : String
  role : String
deriving Repr, DecidableEq

/-- `userServiceImpl.Invite`: like `Create` with fixed name fields, status
`invited` and no phone; a duplicate-key failure is likewise reported as
`ErrDuplicateEmail`. -/
def inviteUser (db : List UserRow) (req : InviteUserRequest) (newId : String) (now : Nat) :
    List UserRow × Except GoErr ApiUser :=
  let username := usernameFromEmail req.email
  let user : UserRow :=
    { id := newId
      firstName := "Invited"
      lastName := "User"
      username := username
      email := req.email
      password := bcryptHash "invited123"
      phoneNumber := ""
      status := "invited"
      role := req.role
      createdAt := now
      updatedAt := now }
  match insertUserRow db user with
  | .error e =>
      if isDuplicateKeyError e then (db, .error (.wrap "invite user: " ErrDuplicateEmail))
      else (db, .error (.wrap "invite user: " e))
  | .ok db' => (db', .ok (userToAPI user))

/-- Request body `api.UpdateUserRequest`: every field optional. -/
structure UpdateUserRequest where
  firstName : Option String
  lastName : Option String
  email : Option String
  phoneNumber : Option String
  status : Option String
  role : Option String
deriving Repr, DecidableEq

/-- Whether `Update` puts at least one column into its `updates` map. -/
def userUpdatesPresent (req : UpdateUserRequest) : Bool :=
  req.firstName.isSome || req.lastName.isSome || req.email.isSome ||
  req.phoneNumber.isSome || req.status.isSome || req.role.isSome

/-- Column writes performed by `Update`'s `Updates(updates)` call on one
row; an empty map performs no write at all. -/
def applyUserUpdates (req : UpdateUserRequest) (now : Nat) (u : UserRow) : UserRow :=
  if userUpdatesPresent req then
    { u with
      firstName := req.firstName.getD u.firstName
      lastName := req.lastName.getD u.lastName
      email := req.email.getD u.email
      phoneNumber := req.phoneNumber.getD u.phoneNumber
      status := req.status.getD u.status
      role := req.role.getD u.role
      updatedAt := now }
  else u

/-- Outcome of `Update` (`api.UpdateUserRes` or a propagated error). -/
inductive UpdateUserRes
  | ok (user : ApiUser)
  | notFound
  | failure (e : GoErr)
deriving Repr, DecidableEq

/-- `userServiceImpl.Update`: load by id (not-found when absent), apply the
present fields, reload by id and re-map. -/
def updateUser (db : List UserRow) (userId : String) (req : UpdateUserRequest) (now : Nat) :
    List UserRow × UpdateUserRes :=
  match db.find? (fun u => u.id == userId) with
  | none => (db, .notFound)
  | some _ =>
    let db' := db.map (fun u => if u.id == userId then applyUserUpdates req now u else u)
    match db'.find? (fun u => u.id == userId) with
    | some u' => (db', .ok (userToAPI u'))
    | none => (db', .failure (.wrap "reload user: " (.other "record not found")))

/-- `userServiceImpl.Delete`: delete by id; not-found when zero rows were
affected, success-with-no-content otherwise. -/
def deleteUser (db : List UserRow) (userId : String) : List UserRow × DeleteRes :=
  let rowsAffected := (db.filter (fun u => u.id == userId)).length
  let db' := db.filter (fun u => !(u.id == userId))
  if rowsAffected = 0 then (db, .notFound) else (db', .noContent)

/- ===================== sample fixtures (shaped like services/seed data) ===================== -/

/-- A concrete stored user, used to evaluate the theorems below. -/
def sampleUser : UserRow :=
  { id := "u1", firstName := "Ada", lastName := "L", username := "ada",
    email := "ada@x.io", password := "p", phoneNumber := "",
    status := "active", role := "admin", createdAt := 1, updatedAt := 2 }

/-- A concrete stored task, used to evaluate the theorems below. -/
def sampleTask : TaskRow :=
  { id := "TASK-0001", title := "T", status := "todo", label := "feature",
    priority := "high", assignee := "bob", description := "",
    dueDate := none, createdAt := 3, updatedAt := 4 }

/-- A concrete stored chat conversation, used to evaluate the theorems below. -/
def sampleChat : ChatConversationRow :=
  { id := "c1", username := "ada", fullName := "Ada L", title := "", profile := "",
    messages := [] }

/-- A concrete stored app, used to evaluate the theorems below. -/
def sampleApp : AppRow :=
  { id := "a1", name := "App", desc := "d", logo := "", connected := false,
    createdAt := 5, updatedAt := 6 }

/-- A concrete create-task request, used to evaluate the theorems below. -/
def sampleCreateTaskReq : CreateTaskRequest :=
  { title := "Ship it", status := "todo", label := "feature", priority := "high",
    assignee := none, description := none, dueDate := none }

/-- A concrete partial update request touching only the user's status. -/
def sampleUpdateUserReq : UpdateUserRequest :=
  { firstName := none, lastName := none, email := none, phoneNumber := none,
    status := some "inactive", role := none }

/-- A concrete partial update request touching only the task's priority. -/
def sampleUpdateTaskReq : UpdateTaskRequest :=
  { title := none, status := none, label := none, priority := some "low",
    assignee := none, description := none, dueDate := none }

/-- A concrete create-user request whose derived username clashes with
`sampleUser` while its email does not. -/
def sampleCreateUserReq : CreateUserRequest :=
  { firstName := "Other", lastName := "Ada", email := "ada@elsewhere.org",
    phoneNumber := none, role := "manager" }

/- ===================== helper lemmas ===================== -/

theorem applyOffsetLimit_length_le {α : Type} (rows : List α) (offset limit : Int)
    (h : 0 ≤ limit) : (applyOffsetLimit rows offset limit).length ≤ limit.toNat := by
  unfold applyOffsetLimit
  simp only [if_pos h]
  exact List.length_take_le _ _

theorem insertSorted_length (le : α → α → Bool) (x : α) (l : List α) :
    (insertSorted le x l).length = l.length + 1 := by
  induction l with
  | nil => rfl
  | cons y ys ih =>
    unfold insertSorted
    by_cases h : le x y = true <;> simp [h, ih]

theorem sortByBool_length (le : α → α → Bool) (l : List α) :
    (sortByBool le l).length = l.length := by
  induction l with
  | nil => rfl
  | cons x xs ih =>
    unfold sortByBool
    rw [insertSorted_length, ih]
    simp

/- ===================== C2: entity mappers ===================== -/

/-- C2: the entity mappers send every empty-string optional text field
(phone, assignee, description, logo, chat title/profile) and every `nil`
due date to the unset marker, copy every non-empty / non-nil optional
value verbatim, and copy every required scalar verbatim; they are total
functions (pure, never failing). -/
theorem entity_mappers_optional_fields_c2 (u : UserRow) (t : TaskRow)
    (c : ChatConversationRow) (a : AppRow) :
    ((userToAPI u).phoneNumber = none ↔ u.phoneNumber = "") ∧
    (u.phoneNumber ≠ "" → (userToAPI u).phoneNumber = some u.phoneNumber) ∧
    (userToAPI u).id = u.id ∧ (userToAPI u).firstName = u.firstName ∧
    (userToAPI u).lastName = u.lastName ∧ (userToAPI u).username = u.username ∧
    (userToAPI u).email = u.email ∧ (userToAPI u).status = u.status ∧
    (userToAPI u).role = u.role ∧
    (userToAPI u).createdAt = some u.createdAt ∧ (userToAPI u).updatedAt = some u.updatedAt ∧
    ((taskToAPI t).assignee = none ↔ t.assignee = "") ∧
    (t.assignee ≠ "" → (taskToAPI t).assignee = some t.assignee) ∧
    ((taskToAPI t).description = none ↔ t.description = "") ∧
    (t.description ≠ "" → (taskToAPI t).description = some t.description) ∧
    ((taskToAPI t).dueDate = none ↔ t.dueDate = none) ∧
    (∀ d, t.dueDate = some d → (taskToAPI t).dueDate = some d) ∧
    (taskToAPI t).id = t.id ∧ (taskToAPI t).title = t.title ∧
    (taskToAPI t).status = t.status ∧ (taskToAPI t).label = t.label ∧
    (taskToAPI t).priority = t.priority ∧
    (taskToAPI t).createdAt = some t.createdAt ∧ (taskToAPI t).updatedAt = some t.updatedAt ∧
    ((appToAPI a).logo = none ↔ a.logo = "") ∧
    (a.logo ≠ "" → (appToAPI a).logo = some a.logo) ∧
    (appToAPI a).id = a.id ∧ (appToAPI a).name = a.name ∧
    (appToAPI a).desc = a.desc ∧ (appToAPI a).connected = a.connected ∧
    ((chatConversationToAPI c).title = none ↔ c.title = "") ∧
    (c.title ≠ "" → (chatConversationToAPI c).title = some c.title) ∧
    ((chatConversationToAPI c).profile = none ↔ c.profile = "") ∧
    (c.profile ≠ "" → (chatConversationToAPI c).profile = some c.profile) ∧
    (chatConversationToAPI c).id = c.id ∧
    (chatConversationToAPI c).username = c.username ∧
    (chatConversationToAPI c).fullName = c.fullName ∧
    (chatConversationToAPI c).messages =
      c.messages.map (fun m => ⟨m.sender, m.message, m.timestamp⟩) := by
  refine ⟨?_, ?_, rfl, rfl, rfl, rfl, rfl, rfl, rfl, rfl, rfl,
          ?_, ?_, ?_, ?_, ?_, ?_, rfl, rfl, rfl, rfl, rfl, rfl, rfl,
          ?_, ?_, rfl, rfl, rfl, rfl,
          ?_, ?_, ?_, ?_, rfl, rfl, rfl, rfl⟩
  · by_cases h : u.phoneNumber = "" <;> simp [userToAPI, h]
  · intro h; simp [userToAPI, h]
  · by_cases h : t.assignee = "" <;> simp [taskToAPI, h]
  · intro h; simp [taskToAPI, h]
  · by_cases h : t.description = "" <;> simp [taskToAPI, h]
  · intro h; simp [taskToAPI, h]
  · cases h : t.dueDate <;> simp [taskToAPI, h]
  · intro d h; simp [taskToAPI, h]
  · by_cases h : a.logo = "" <;> simp [appToAPI, h]
  · intro h; simp [appToAPI, h]
  · by_cases h : c.title = "" <;> simp [chatConversationToAPI, h]
  · intro h; simp [chatConversationToAPI, h]
  · by_cases h : c.profile = "" <;> simp [chatConversationToAPI, h]
  · intro h; simp [chatConversationToAPI, h]

/-- Witness for C2 at concrete rows: the unset and set branches of the
optional-field mapping, evaluated. -/
theorem entity_mappers_optional_fields_c2_witness :
    (userToAPI sampleUser).phoneNumber = none ∧
    (taskToAPI sampleTask).assignee = some "bob" := by
  have h := entity_mappers_optional_fields_c2 sampleUser sampleTask sampleChat sampleApp
  exact ⟨h.1.mpr (by decide), h.2.2.2.2.2.2.2.2.2.2.2.2.1 (by decide)⟩

/- ===================== C6: delete semantics ===================== -/

/-- C6: deleting a non-existent identifier returns not-found and leaves
every row in place; deleting an existing identifier removes the matching
rows and returns success-with-no-content, for users and tasks alike. -/
theorem delete_semantics_c6 (dbU : List UserRow) (uid : String)
    (dbT : List TaskRow) (tid : String) :
    ((∀ u ∈ dbU, u.id ≠ uid) → deleteUser dbU uid = (dbU, .notFound)) ∧
    ((∃ u ∈ dbU, u.id = uid) →
       (deleteUser dbU uid).2 = .noContent ∧
       (deleteUser dbU uid).1 = dbU.filter (fun u => !(u.id == uid)) ∧
       ∀ u ∈ (deleteUser dbU uid).1, u.id ≠ uid) ∧
    ((∀ t ∈ dbT, t.id ≠ tid) → deleteTask dbT tid = (dbT, .notFound)) ∧
    ((∃ t ∈ dbT, t.id = tid) →
       (deleteTask dbT tid).2 = .noContent ∧
       (deleteTask dbT tid).1 = dbT.filter (fun t => !(t.id == tid)) ∧
       ∀ t ∈ (deleteTask dbT tid).1, t.id ≠ tid) := by
  refine ⟨?_, ?_, ?_, ?_⟩
  · intro h
    unfold deleteUser
    have hfil : dbU.filter (fun u => u.id == uid) = [] := by
      rw [List.filter_eq_nil_iff]
      intro u hu
      simpa using h u hu
    simp [hfil]
  · rintro ⟨u, hu, hid⟩
    have hmem : u ∈ dbU.filter (fun v => v.id == uid) := by
      rw [List.mem_filter]
      exact ⟨hu, by simp [hid]⟩
    have hne : (dbU.filter (fun v => v.id == uid)).length ≠ 0 := by
      intro h0
      rw [List.length_eq_zero] at h0
      rw [h0] at hmem
      exact List.not_mem_nil _ hmem
    have heq : deleteUser dbU uid = (dbU.filter (fun v => !(v.id == uid)), .noContent) := by
      simp only [deleteUser]
      rw [if_neg hne]
    refine ⟨by rw [heq], by rw [heq], ?_⟩
    intro v hv
    rw [heq] at hv
    rw [List.mem_filter] at hv
    simpa using hv.2
  · intro h
    unfold deleteTask
    have hfil : dbT.filter (fun t => t.id == tid) = [] := by
      rw [List.filter_eq_nil_iff]
      intro t ht
      simpa using h t ht
    simp [hfil]
  · rintro ⟨t, ht, hid⟩
    have hmem : t ∈ dbT.filter (fun v => v.id == tid) := by
      rw [List.mem_filter]
      exact ⟨ht, by simp [hid]⟩
    have hne : (dbT.filter (fun v => v.id == tid)).length ≠ 0 := by
      intro h0
      rw [List.length_eq_zero] at h0
      rw [h0] at hmem
      exact List.not_mem_nil _ hmem
    have heq : deleteTask dbT tid = (dbT.filter (fun v => !(v.id == tid)), .noContent) := by
      simp only [deleteTask]
      rw [if_neg hne]
    refine ⟨by rw [heq], by rw [heq], ?_⟩
    intro v hv
    rw [heq] at hv
    rw [List.mem_filter] at hv
    simpa using hv.2

/-- Witness for C6: both branches evaluated on a concrete one-row store. -/
theorem delete_semantics_c6_witness :
    deleteUser [sampleUser] "missing" = ([sampleUser], .notFound) ∧
    (deleteTask [sampleTask] "TASK-0001").2 = .noContent := by
  have h := delete_semantics_c6 [sampleUser] "missing" [sampleTask] "TASK-0001"
  exact ⟨h.1 (by decide), (h.2.2.2 ⟨sampleTask, by simp, by decide⟩).1⟩

/- ===================== C10: page-size zero ===================== -/

/-- C10 (counterexample): a list request that explicitly supplies
`page_size = 0` reaches the service with effective page size `0` — ogen's
`Opt.Or` returns the supplied value, not the default — and the
total-pages computation divides by zero (a Go runtime panic, modelled as
`none`). -/
theorem pageSize_division_c10_counterexample :
    optOr (some 0) 10 = 0 ∧
    listUsers [] { page := none, pageSize := some 0, status := [], role := [],
                   username := none } = none ∧
    listTasks [] { page := none, pageSize := some 0, status := [], priority := [],
                   filter := none } = none := by
  refine ⟨rfl, ?_, ?_⟩ <;> rfl

/-- C10 (amended): the effective page size obtained via `Opt.Or(10)` is
nonzero — and the total-pages division is therefore performed — exactly
when the request does not explicitly supply `page_size = 0`; an absent
`page_size` defaults to 10. -/
theorem pageSize_division_safety_c10 (dbU : List UserRow) (pU : ListUsersParams)
    (dbT : List TaskRow) (pT : ListTasksParams) :
    (optOr pU.pageSize 10 ≠ 0 ↔ pU.pageSize ≠ some 0) ∧
    ((listUsers dbU pU).isSome ↔ pU.pageSize ≠ some 0) ∧
    (optOr pT.pageSize 10 ≠ 0 ↔ pT.pageSize ≠ some 0) ∧
    ((listTasks dbT pT).isSome ↔ pT.pageSize ≠ some 0) := by
  have hoptU : optOr pU.pageSize 10 ≠ 0 ↔ pU.pageSize ≠ some 0 := by
    cases h : pU.pageSize <;> simp [optOr, h]
  have hoptT : optOr pT.pageSize 10 ≠ 0 ↔ pT.pageSize ≠ some 0 := by
    cases h : pT.pageSize <;> simp [optOr, h]
  refine ⟨hoptU, ?_, hoptT, ?_⟩
  · rw [← hoptU]
    simp only [listUsers]
    by_cases h : optOr pU.pageSize 10 = 0 <;> simp [h]
  · rw [← hoptT]
    simp only [listTasks]
    by_cases h : optOr pT.pageSize 10 = 0 <;> simp [h]

/-- Witness for C10 (amended) at a concrete request with `page_size`
absent: the response is produced. -/
theorem pageSize_division_safety_c10_witness :
    (listUsers [sampleUser] { page := none, pageSize := none, status := [], role := [],
                              username := none }).isSome := by
  exact (pageSize_division_safety_c10 [sampleUser]
    { page := none, pageSize := none, status := [], role := [], username := none }
    [] { page := none, pageSize := none, status := [], priority := [],
         filter := none }).2.1.mpr (by decide)

/- ===================== padNumber lemmas ===================== -/

theorem padNumberChars_length (num width : Nat) :
    (padNumberChars num width).length = width := by
  induction width generalizing num with
  | zero => rfl
  | succ w ih => simp [padNumberChars, ih]

theorem digitChar_isDigit (num : Nat) : (Char.ofNat (48 + num % 10)).isDigit = true := by
  have h10 : num % 10 < 10 := Nat.mod_lt _ (by norm_num)
  revert h10
  generalize num % 10 = k
  intro h10
  interval_cases k <;> decide

theorem digitChar_toNat (num : Nat) : (Char.ofNat (48 + num % 10)).toNat - 48 = num % 10 := by
  have h10 : num % 10 < 10 := Nat.mod_lt _ (by norm_num)
  revert h10
  generalize num % 10 = k
  intro h10
  interval_cases k <;> decide

theorem padNumberChars_digits (num width : Nat) :
    ∀ c ∈ padNumberChars num width, c.isDigit = true := by
  induction width generalizing num with
  | zero => intro c hc; simp [padNumberChars] at hc
  | succ w ih =>
    intro c hc
    simp only [padNumberChars, List.mem_append, List.mem_singleton] at hc
    rcases hc with hc | hc
    · exact ih _ c hc
    · subst hc
      exact digitChar_isDigit num

theorem decValue_append_digit (ds : List Char) (c : Char) :
    decValue (ds ++ [c]) = 10 * decValue ds + (c.toNat - 48) := by
  simp [decValue, List.foldl_append]

theorem decValue_padNumberChars (num width : Nat) :
    decValue (padNumberChars num width) = num % 10 ^ width := by
  induction width generalizing num with
  | zero => simp [padNumberChars, decValue, Nat.mod_one]
  | succ w ih =>
    rw [padNumberChars, decValue_append_digit, ih, digitChar_toNat]
    rw [pow_succ, mul_comm (10 ^ w) 10, Nat.mod_mul]
    omega

theorem beforeCreate_id_of_empty (db : List TaskRow) (t : TaskRow) (h : t.id = "") :
    (beforeCreate db t).id = generateTaskID (db.length + 1) := by
  simp [beforeCreate, h]

theorem padNumberChars_mod (num width : Nat) :
    padNumberChars num width = padNumberChars (num % 10 ^ width) width := by
  induction width generalizing num with
  | zero => rfl
  | succ w ih =>
    have hdiv : num % 10 ^ (w + 1) / 10 = num / 10 % 10 ^ w := by
      rw [pow_succ, mul_comm (10 ^ w) 10]
      exact Nat.mod_mul_right_div_self num 10 (10 ^ w)
    have hmod : num % 10 ^ (w + 1) % 10 = num % 10 := by
      exact Nat.mod_mod_of_dvd num (dvd_pow_self 10 (Nat.succ_ne_zero w))
    rw [padNumberChars, padNumberChars, hdiv, hmod, ih (num / 10)]

/- ===================== C9: identifier truncation and period ===================== -/

/-- C9: `padNumber num 4` is a 4-character string rendering exactly the
last four decimal digits of `num` — its digits decode to `num % 10000`
and it depends on `num` only through `num % 10000` — so `BeforeCreate`
identifiers repeat with period 10000: the task created when the table
already holds 10000 rows gets `TASK-0001`, the same identifier as the
first task. -/
theorem padNumber_truncation_c9 (num : Nat) (t : TaskRow) :
    (padNumberChars num 4).length = 4 ∧
    decValue (padNumberChars num 4) = num % 10000 ∧
    padNumber num 4 = padNumber (num % 10000) 4 ∧
    generateTaskID (10000 + 1) = "TASK-0001" ∧
    generateTaskID 1 = "TASK-0001" ∧
    (beforeCreate (List.replicate 10000 t) { t with id := "" }).id = "TASK-0001" ∧
    (beforeCreate [] { t with id := "" }).id = "TASK-0001" := by
  refine ⟨padNumberChars_length num 4, ?_, ?_, by decide, by decide, ?_, ?_⟩
  · have := decValue_padNumberChars num 4
    norm_num at this
    exact this
  · unfold padNumber
    rw [padNumberChars_mod num 4]
    norm_num
  · rw [beforeCreate_id_of_empty _ _ rfl, List.length_replicate]
    decide
  · rw [beforeCreate_id_of_empty _ _ rfl]
    decide

/- ===================== C5: task creation ===================== -/

/-- C5: a task created without a supplied id is assigned `"TASK-"` followed
by the zero-padded 4-digit decimal rendering of (current row count + 1):
a four-character digit string decoding to that sequence number, so the id
matches `TASK-\d{4}`; the response copies title, status, label and
priority from the request and carries creation/update timestamps. -/
theorem create_task_id_c5 (db : List TaskRow) (req : CreateTaskRequest) (now : Nat)
    (hseq : db.length + 1 ≤ 9999) :
    ∃ row ds,
      createTask db req now = (db ++ [row], taskToAPI row) ∧
      row.id = "TASK-" ++ String.mk ds ∧
      ds.length = 4 ∧
      (∀ c ∈ ds, c.isDigit = true) ∧
      decValue ds = db.length + 1 ∧
      (taskToAPI row).id = row.id ∧
      (taskToAPI row).title = req.title ∧
      (taskToAPI row).status = req.status ∧
      (taskToAPI row).label = req.label ∧
      (taskToAPI row).priority = req.priority ∧
      ((taskToAPI row).createdAt).isSome = true ∧
      ((taskToAPI row).updatedAt).isSome = true := by
  refine ⟨beforeCreate db
      { id := "", title := req.title, status := req.status, label := req.label,
        priority := req.priority, assignee := req.assignee.getD "",
        description := req.description.getD "", dueDate := req.dueDate,
        createdAt := now, updatedAt := now },
    padNumberChars (db.length + 1) 4, rfl, ?_,
    padNumberChars_length _ 4, padNumberChars_digits _ 4, ?_,
    rfl, ?_, ?_, ?_, ?_, ?_, ?_⟩
  · rw [beforeCreate_id_of_empty _ _ rfl]
    rfl
  · rw [decValue_padNumberChars]
    exact Nat.mod_eq_of_lt (by omega)
  · simp [taskToAPI, beforeCreate]
  · simp [taskToAPI, beforeCreate]
  · simp [taskToAPI, beforeCreate]
  · simp [taskToAPI, beforeCreate]
  · simp [taskToAPI, beforeCreate]
  · simp [taskToAPI, beforeCreate]

/-- Witness for C5 on the empty store and a concrete request: the theorem
applies and the created id evaluates to `TASK-0001`. -/
theorem create_task_id_c5_witness :
    ([] : List TaskRow).length + 1 ≤ 9999 ∧
    (∃ row ds,
      createTask ([] : List TaskRow) sampleCreateTaskReq 7 = ([] ++ [row], taskToAPI row) ∧
      row.id = "TASK-" ++ String.mk ds ∧
      ds.length = 4 ∧
      (∀ c ∈ ds, c.isDigit = true) ∧
      decValue ds = ([] : List TaskRow).length + 1 ∧
      (taskToAPI row).id = row.id ∧
      (taskToAPI row).title = sampleCreateTaskReq.title ∧
      (taskToAPI row).status = sampleCreateTaskReq.status ∧
      (taskToAPI row).label = sampleCreateTaskReq.label ∧
      (taskToAPI row).priority = sampleCreateTaskReq.priority ∧
      ((taskToAPI row).createdAt).isSome = true ∧
      ((taskToAPI row).updatedAt).isSome = true) ∧
    ((createTask ([] : List TaskRow) sampleCreateTaskReq 7).2).id = "TASK-0001" :=
  ⟨by decide, create_task_id_c5 [] sampleCreateTaskReq 7 (by decide), by decide⟩

/- ===================== C3: partial updates ===================== -/

theorem applyUserUpdates_id (req : UpdateUserRequest) (now : Nat) (u : UserRow) :
    (applyUserUpdates req now u).id = u.id := by
  unfold applyUserUpdates
  split <;> rfl

theorem applyTaskUpdates_id (req : UpdateTaskRequest) (now : Nat) (t : TaskRow) :
    (applyTaskUpdates req now t).id = t.id := by
  unfold applyTaskUpdates
  split <;> rfl

theorem find?_map_ite {α : Type} (p : α → Bool) (g : α → α)
    (hg : ∀ x, p x = true → p (g x) = true) (l : List α) (x : α)
    (h : l.find? p = some x) :
    (l.map (fun y => if p y then g y else y)).find? p = some (g x) := by
  induction l with
  | nil => simp at h
  | cons a as ih =>
    by_cases ha : p a = true
    · rw [List.find?_cons_of_pos _ ha] at h
      injection h with h
      subst h
      simp only [List.map_cons, if_pos ha]
      exact List.find?_cons_of_pos _ (hg a ha)
    · rw [List.find?_cons_of_neg _ ha] at h
      simp only [List.map_cons, if_neg ha]
      rw [List.find?_cons_of_neg _ ha]
      exact ih h

/-- C3: partial-update semantics for users and tasks on an existing row:
exactly the rows with the requested id are rewritten by the present
fields, every omitted field keeps its prior value, other rows are
untouched, and the response is the row reloaded after the write and
re-mapped. -/
theorem update_partial_c3
    (dbU : List UserRow) (uid : String) (requ : UpdateUserRequest)
    (dbT : List TaskRow) (tid : String) (reqt : UpdateTaskRequest) (now : Nat)
    (u : UserRow) (hu : dbU.find? (fun x => x.id == uid) = some u)
    (t : TaskRow) (ht : dbT.find? (fun x => x.id == tid) = some t) :
    updateUser dbU uid requ now =
      (dbU.map (fun x => if x.id == uid then applyUserUpdates requ now x else x),
       .ok (userToAPI (applyUserUpdates requ now u))) ∧
    (requ.firstName = none → (applyUserUpdates requ now u).firstName = u.firstName) ∧
    (requ.lastName = none → (applyUserUpdates requ now u).lastName = u.lastName) ∧
    (requ.email = none → (applyUserUpdates requ now u).email = u.email) ∧
    (requ.phoneNumber = none → (applyUserUpdates requ now u).phoneNumber = u.phoneNumber) ∧
    (requ.status = none → (applyUserUpdates requ now u).status = u.status) ∧
    (requ.role = none → (applyUserUpdates requ now u).role = u.role) ∧
    (applyUserUpdates requ now u).id = u.id ∧
    (∀ v ∈ dbU, v.id ≠ uid → v ∈ (updateUser dbU uid requ now).1) ∧
    updateTask dbT tid reqt now =
      (dbT.map (fun x => if x.id == tid then applyTaskUpdates reqt now x else x),
       .ok (taskToAPI (applyTaskUpdates reqt now t))) ∧
    (reqt.title = none → (applyTaskUpdates reqt now t).title = t.title) ∧
    (reqt.status = none → (applyTaskUpdates reqt now t).status = t.status) ∧
    (reqt.label = none → (applyTaskUpdates reqt now t).label = t.label) ∧
    (reqt.priority = none → (applyTaskUpdates reqt now t).priority = t.priority) ∧
    (reqt.assignee = none → (applyTaskUpdates reqt now t).assignee = t.assignee) ∧
    (reqt.description = none → (applyTaskUpdates reqt now t).description = t.description) ∧
    (reqt.dueDate = none → (applyTaskUpdates reqt now t).dueDate = t.dueDate) ∧
    (applyTaskUpdates reqt now t).id = t.id ∧
    (∀ v ∈ dbT, v.id ≠ tid → v ∈ (updateTask dbT tid reqt now).1) := by
  have hgu : ∀ x : UserRow, (x.id == uid) = true →
      ((applyUserUpdates requ now x).id == uid) = true := by
    intro x hx
    rw [applyUserUpdates_id]
    exact hx
  have hgt : ∀ x : TaskRow, (x.id == tid) = true →
      ((applyTaskUpdates reqt now x).id == tid) = true := by
    intro x hx
    rw [applyTaskUpdates_id]
    exact hx
  have hfu := find?_map_ite (fun x : UserRow => x.id == uid)
    (applyUserUpdates requ now) hgu dbU u hu
  have hft := find?_map_ite (fun x : TaskRow => x.id == tid)
    (applyTaskUpdates reqt now) hgt dbT t ht
  have hmainU : updateUser dbU uid requ now =
      (dbU.map (fun x => if x.id == uid then applyUserUpdates requ now x else x),
       .ok (userToAPI (applyUserUpdates requ now u))) := by
    simp only [updateUser, hu, hfu]
  have hmainT : updateTask dbT tid reqt now =
      (dbT.map (fun x => if x.id == tid then applyTaskUpdates reqt now x else x),
       .ok (taskToAPI (applyTaskUpdates reqt now t))) := by
    simp only [updateTask, ht, hft]
  refine ⟨hmainU, ?_, ?_, ?_, ?_, ?_, ?_, applyUserUpdates_id requ now u, ?_,
          hmainT, ?_, ?_, ?_, ?_, ?_, ?_, ?_, applyTaskUpdates_id reqt now t, ?_⟩
  · intro h; unfold applyUserUpdates; split <;> simp [h]
  · intro h; unfold applyUserUpdates; split <;> simp [h]
  · intro h; unfold applyUserUpdates; split <;> simp [h]
  · intro h; unfold applyUserUpdates; split <;> simp [h]
  · intro h; unfold applyUserUpdates; split <;> simp [h]
  · intro h; unfold applyUserUpdates; split <;> simp [h]
  · intro v hv hvne
    rw [hmainU]
    refine List.mem_map.mpr ⟨v, hv, ?_⟩
    rw [if_neg (by simp [hvne])]
  · intro h; unfold applyTaskUpdates; split <;> simp [h]
  · intro h; unfold applyTaskUpdates; split <;> simp [h]
  · intro h; unfold applyTaskUpdates; split <;> simp [h]
  · intro h; unfold applyTaskUpdates; split <;> simp [h]
  · intro h; unfold applyTaskUpdates; split <;> simp [h]
  · intro h; unfold applyTaskUpdates; split <;> simp [h]
  · intro h; unfold applyTaskUpdates; split <;> simp [h]
  · intro v hv hvne
    rw [hmainT]
    refine List.mem_map.mpr ⟨v, hv, ?_⟩
    rw [if_neg (by simp [hvne])]

/-- Witness for C3 on one-row stores: the load hypotheses hold by
evaluation, and the theorem yields retention of the omitted fields for a
status-only user update and a priority-only task update. -/
theorem update_partial_c3_witness :
    ([sampleUser].find? (fun x => x.id == "u1") = some sampleUser) ∧
    ([sampleTask].find? (fun x => x.id == "TASK-0001") = some sampleTask) ∧
    (applyUserUpdates sampleUpdateUserReq 9 sampleUser).email = sampleUser.email ∧
    (applyTaskUpdates sampleUpdateTaskReq 9 sampleTask).title = sampleTask.title := by
  have h := update_partial_c3 [sampleUser] "u1" sampleUpdateUserReq
    [sampleTask] "TASK-0001" sampleUpdateTaskReq 9 sampleUser (by decide) sampleTask (by decide)
  exact ⟨by decide, by decide, h.2.2.2.1 rfl, h.2.2.2.2.2.2.2.2.2.2.1 rfl⟩

/- ===================== C4: error classification ===================== -/

theorem errBaseIs_wrap_false (m : String) (inner target : GoErr) :
    errBaseIs (.wrap m inner) target = false := by
  cases target <;> rfl

theorem errIs_eq_leaf (e target : GoErr) : errIs e target = errBaseIs (errLeaf e) target := by
  induction e with
  | canceled => rfl
  | deadlineExceeded => rfl
  | sentinel m => rfl
  | other m => rfl
  | wrap m inner ih =>
    show (errBaseIs (.wrap m inner) target || errIs inner target) = errBaseIs (errLeaf inner) target
    rw [errBaseIs_wrap_false, ih]
    simp

theorem mapServiceError_eq_spec (e : GoErr) : mapServiceError e = specErrorEntry e := by
  unfold mapServiceError specErrorEntry
  simp only [errIs_eq_leaf]
  cases hl : errLeaf e with
  | canceled => decide
  | deadlineExceeded => decide
  | wrap m inner =>
    simp [AllErrors, Errors, ErrUserNotFound, ErrTaskNotFound, ErrAppNotFound,
      ErrChatNotFound, ErrInvalidCredentials, ErrUnauthorized, ErrDuplicateEmail,
      ErrDuplicateUsername, errBaseIs]
  | other m =>
    simp [AllErrors, Errors, ErrUserNotFound, ErrTaskNotFound, ErrAppNotFound,
      ErrChatNotFound, ErrInvalidCredentials, ErrUnauthorized, ErrDuplicateEmail,
      ErrDuplicateUsername, errBaseIs]
  | sentinel m =>
    by_cases h1 : m = "user not found"
    · subst h1; decide
    by_cases h2 : m = "task not found"
    · subst h2; decide
    by_cases h3 : m = "app not found"
    · subst h3; decide
    by_cases h4 : m = "chat not found"
    · subst h4; decide
    by_cases h5 : m = "invalid credentials"
    · subst h5; decide
    by_cases h6 : m = "unauthorized"
    · subst h6; decide
    by_cases h7 : m = "email already exists"
    · subst h7; decide
    by_cases h8 : m = "username already exists"
    · subst h8; decide
    simp [AllErrors, Errors, ErrUserNotFound, ErrTaskNotFound, ErrAppNotFound,
      ErrChatNotFound, ErrInvalidCredentials, ErrUnauthorized, ErrDuplicateEmail,
      ErrDuplicateUsername, errBaseIs, h1, h2, h3, h4, h5, h6, h7, h8]

/-- C4: the dispatch-boundary error handler classifies every error by the
leaf of its wrap chain — cancellation to the 499 request-cancelled entry,
deadline to the 504 request-timeout entry, a table sentinel to that
sentinel's entry, anything else to the 500 internal-error entry — and the
response body carries the entry's stable code and message, with the raw
error text in `details` exactly when the hide-error-details flag is
off. -/
theorem error_handler_classification_c4 (err : GoErr) (hide : Bool) :
    mapServiceError err = specErrorEntry err ∧
    ogenErrorHandler hide err =
      { httpStatus := (specErrorEntry err).httpStatus
        code := (specErrorEntry err).code
        message := (specErrorEntry err).message
        details := if hide then none else some (errMsg err) } ∧
    Errors.requestCancelled.httpStatus = 499 ∧
    Errors.requestTimeout.httpStatus = 504 ∧
    Errors.internalError.httpStatus = 500 := by
  refine ⟨mapServiceError_eq_spec err, ?_, rfl, rfl, rfl⟩
  unfold ogenErrorHandler
  rw [mapServiceError_eq_spec err]
  cases hide <;> rfl

/- ===================== C8: duplicate-key reporting ===================== -/

theorem insertUserRow_error_other (db : List UserRow) (u : UserRow) (e : GoErr)
    (h : insertUserRow db u = .error e) : ∃ msg, e = .other msg := by
  unfold insertUserRow at h
  split at h
  · injection h with h
    exact ⟨_, h.symm⟩
  · split at h
    · injection h with h
      exact ⟨_, h.symm⟩
    · exact absurd h (by simp)

/-- C8: a uniqueness violation during user Create or Invite — including a
collision on the derived username alone — is reported as the
duplicate-email sentinel; no error produced by Create, Invite, Update or
UpdateTask ever matches the duplicate-username sentinel, so the
`DUPLICATE_USERNAME` table entry is unreachable from these service
errors. -/
theorem duplicate_username_unreachable_c8
    (db : List UserRow) (req : CreateUserRequest)
    (newId : String) (now : Nat)
    (hclash : ∃ v ∈ db, v.username = usernameFromEmail req.email) :
    ((createUser db req newId now).2 =
       .error (.wrap "create user: " ErrDuplicateEmail) ∧
     errIs (.wrap "create user: " ErrDuplicateEmail) ErrDuplicateEmail = true ∧
     mapServiceError (.wrap "create user: " ErrDuplicateEmail) = Errors.duplicateEmail) ∧
    (∀ e, (createUser db req newId now).2 = .error e →
       errIs e ErrDuplicateUsername = false ∧
       mapServiceError e ≠ Errors.duplicateUsername) ∧
    (∀ (db2 : List UserRow) (reqi2 : InviteUserRequest) (id2 : String) (n2 : Nat) e,
       (inviteUser db2 reqi2 id2 n2).2 = .error e →
       errIs e ErrDuplicateUsername = false ∧
       mapServiceError e ≠ Errors.duplicateUsername) ∧
    (∀ (db2 : List UserRow) (uid : String) (requ : UpdateUserRequest) (n2 : Nat) e,
       (updateUser db2 uid requ n2).2 = .failure e →
       errIs e ErrDuplicateUsername = false) ∧
    (∀ (db2 : List TaskRow) (tid : String) (reqt : UpdateTaskRequest) (n2 : Nat) e,
       (updateTask db2 tid reqt n2).2 = .failure e →
       errIs e ErrDuplicateUsername = false) := by
  have hany : db.any (fun w => w.username == usernameFromEmail req.email) = true := by
    rw [List.any_eq_true]
    obtain ⟨v, hv, hvu⟩ := hclash
    exact ⟨v, hv, by simp [hvu]⟩
  have hdup : isDuplicateKeyError (.other (duplicateKeyMsg "idx_users_username")) = true := by
    decide
  refine ⟨⟨?_, by decide, by decide⟩, ?_, ?_, ?_, ?_⟩
  · simp only [createUser, insertUserRow, hany, hdup, if_true]
  · intro e he
    simp only [createUser] at he
    split at he
    · rename_i e0 hins
      obtain ⟨msg, rfl⟩ := insertUserRow_error_other db _ e0 hins
      split at he
      · injection he with he
        subst he
        exact ⟨by decide, by decide⟩
      · injection he with he
        subst he
        refine ⟨rfl, ?_⟩
        rw [mapServiceError_eq_spec]
        have hsp : specErrorEntry (.wrap "create user: " (.other msg)) =
            Errors.internalError := rfl
        rw [hsp]
        decide
    · exact absurd he (by simp)
  · intro db2 reqi2 id2 n2 e he
    simp only [inviteUser] at he
    split at he
    · rename_i e0 hins
      obtain ⟨msg, rfl⟩ := insertUserRow_error_other db2 _ e0 hins
      split at he
      · injection he with he
        subst he
        exact ⟨by decide, by decide⟩
      · injection he with he
        subst he
        refine ⟨rfl, ?_⟩
        rw [mapServiceError_eq_spec]
        have hsp : specErrorEntry (.wrap "invite user: " (.other msg)) =
            Errors.internalError := rfl
        rw [hsp]
        decide
    · exact absurd he (by simp)
  · intro db2 uid requ n2 e he
    simp only [updateUser] at he
    split at he
    · exact absurd he (by simp)
    · split at he
      · exact absurd he (by simp)
      · injection he with he
        subst he
        rfl
  · intro db2 tid reqt n2 e he
    simp only [updateTask] at he
    split at he
    · exact absurd he (by simp)
    · split at he
      · exact absurd he (by simp)
      · injection he with he
        subst he
        rfl

/-- Witness for C8: `sampleUser` holds username `ada`; creating a user with
a different email whose local part is also `ada` trips the username index
yet is reported as the duplicate-email sentinel. -/
theorem duplicate_username_unreachable_c8_witness :
    (∃ v ∈ [sampleUser], v.username = usernameFromEmail sampleCreateUserReq.email) ∧
    (createUser [sampleUser] sampleCreateUserReq "u2" 8).2 =
      .error (.wrap "create user: " ErrDuplicateEmail) ∧
    sampleCreateUserReq.email ≠ sampleUser.email := by
  have h := duplicate_username_unreachable_c8 [sampleUser] sampleCreateUserReq
    "u2" 8 ⟨sampleUser, by simp, by decide⟩
  exact ⟨⟨sampleUser, by simp, by decide⟩, h.1.1, by decide⟩

/- ===================== C7: filter semantics ===================== -/

theorem matchesAll_append {α : Type} (fs gs : List (α → Bool)) (x : α) :
    matchesAll (fs ++ gs) x = (matchesAll fs x && matchesAll gs x) := by
  simp [matchesAll, List.all_append]

theorem matchesAll_ite_single {α : Type} (c : Prop) [Decidable c] (f : α → Bool) (x : α) :
    matchesAll (if c then [f] else []) x = if c then f x else true := by
  split <;> simp [matchesAll]

theorem userMatches_iff (p : ListUsersParams) (u : UserRow) :
    matchesAll (userQueryFilters p) u = true ↔
      ((p.status ≠ [] → p.status.contains u.status = true) ∧
       (p.role ≠ [] → p.role.contains u.role = true) ∧
       (∀ s, p.username = some s → s ≠ "" →
         lowerChars s <:+: lowerChars u.username)) := by
  unfold userQueryFilters
  rw [matchesAll_append, matchesAll_append, matchesAll_ite_single, matchesAll_ite_single]
  cases hus : p.username with
  | none =>
    by_cases hs : p.status = [] <;> by_cases hr : p.role = [] <;>
      simp [matchesAll, List.length_pos, hs, hr]
  | some s =>
    rw [show (match some s with
         | some username => if username ≠ "" then
             [fun u : UserRow => ilikeContains username u.username] else []
         | none => []) =
        (if s ≠ "" then [fun u : UserRow => ilikeContains s u.username] else []) from rfl]
    rw [matchesAll_ite_single]
    by_cases hs : p.status = [] <;> by_cases hr : p.role = [] <;>
      by_cases hse : s = "" <;>
      simp [List.length_pos, hs, hr, hse, ilikeContains, and_assoc]

theorem taskMatches_iff (p : ListTasksParams) (t : TaskRow) :
    matchesAll (taskQueryFilters p) t = true ↔
      ((p.status ≠ [] → p.status.contains t.status = true) ∧
       (p.priority ≠ [] → p.priority.contains t.priority = true) ∧
       (∀ s, p.filter = some s → s ≠ "" →
         (lowerChars s <:+: lowerChars t.title ∨ lowerChars s <:+: lowerChars t.id))) := by
  unfold taskQueryFilters
  rw [matchesAll_append, matchesAll_append, matchesAll_ite_single, matchesAll_ite_single]
  cases hft : p.filter with
  | none =>
    by_cases hs : p.status = [] <;> by_cases hr : p.priority = [] <;>
      simp [matchesAll, List.length_pos, hs, hr]
  | some s =>
    rw [show (match some s with
         | some f => if f ≠ "" then
             [fun t : TaskRow => ilikeContains f t.title || ilikeContains f t.id] else []
         | none => []) =
        (if s ≠ "" then
           [fun t : TaskRow => ilikeContains s t.title || ilikeContains s t.id] else [])
        from rfl]
    rw [matchesAll_ite_single]
    by_cases hs : p.status = [] <;> by_cases hr : p.priority = [] <;>
      by_cases hse : s = "" <;>
      simp [List.length_pos, hs, hr, hse, ilikeContains, and_assoc]

theorem appMatches_iff (p : ListAppsParams) (a : AppRow) :
    matchesAll (appQueryFilters p) a = true ↔
      ((∀ ty, p.type = some ty → a.connected ∈ connectedSetOf ty) ∧
       (∀ s, p.filter = some s → s ≠ "" →
         lowerChars s <:+: lowerChars a.name)) := by
  unfold appQueryFilters
  rw [matchesAll_append]
  have hfb : matchesAll (match p.filter with
      | some f => if f ≠ "" then [fun a : AppRow => ilikeContains f a.name] else []
      | none => []) a = true ↔
      (∀ s, p.filter = some s → s ≠ "" → lowerChars s <:+: lowerChars a.name) := by
    cases hft : p.filter with
    | none => simp [matchesAll]
    | some s =>
      rw [show (match some s with
           | some f => if f ≠ "" then [fun a : AppRow => ilikeContains f a.name] else []
           | none => []) =
          (if s ≠ "" then [fun a : AppRow => ilikeContains s a.name] else []) from rfl]
      rw [matchesAll_ite_single]
      by_cases hse : s = "" <;> simp [hse, ilikeContains]
  cases hty : p.type with
  | none =>
    simp only [Bool.and_eq_true, hfb]
    simp [matchesAll]
  | some ty =>
    cases ty with
    | all =>
      simp only [Bool.and_eq_true, hfb]
      simp only [matchesAll, List.all_nil, true_and]
      constructor
      · rintro h
        refine ⟨?_, h⟩
        rintro ty2 hty2
        injection hty2 with hty2
        subst hty2
        cases a.connected <;> simp [connectedSetOf]
      · rintro ⟨_, h⟩
        exact h
    | connected =>
      simp only [Bool.and_eq_true, hfb]
      simp [matchesAll, connectedSetOf]
    | notConnected =>
      simp only [Bool.and_eq_true, hfb]
      simp [matchesAll, connectedSetOf]

/-- C7: each enum-valued filter is a membership test applied only when its
set is non-empty (for apps, the type filter admits the corresponding
connected-flag values, with `all` admitting both); the free-text filter is
a case-insensitive substring match on the designated text columns applied
only when present and non-empty; all supplied filters combine
conjunctively, so clearing any one filter can only grow (never shrink)
the selected row set. -/
theorem filters_conjunctive_c7 (dbU : List UserRow) (pU : ListUsersParams)
    (dbT : List TaskRow) (pT : ListTasksParams)
    (dbA : List AppRow) (pA : ListAppsParams) :
    (∀ u : UserRow, matchesAll (userQueryFilters pU) u = true ↔
       ((pU.status ≠ [] → pU.status.contains u.status = true) ∧
        (pU.role ≠ [] → pU.role.contains u.role = true) ∧
        (∀ s, pU.username = some s → s ≠ "" →
          lowerChars s <:+: lowerChars u.username))) ∧
    (∀ t : TaskRow, matchesAll (taskQueryFilters pT) t = true ↔
       ((pT.status ≠ [] → pT.status.contains t.status = true) ∧
        (pT.priority ≠ [] → pT.priority.contains t.priority = true) ∧
        (∀ s, pT.filter = some s → s ≠ "" →
          (lowerChars s <:+: lowerChars t.title ∨ lowerChars s <:+: lowerChars t.id)))) ∧
    (∀ a : AppRow, matchesAll (appQueryFilters pA) a = true ↔
       ((∀ ty, pA.type = some ty → a.connected ∈ connectedSetOf ty) ∧
        (∀ s, pA.filter = some s → s ≠ "" →
          lowerChars s <:+: lowerChars a.name))) ∧
    (dbU.filter (matchesAll (userQueryFilters pU))).Sublist
      (dbU.filter (matchesAll (userQueryFilters { pU with status := [] }))) ∧
    (dbU.filter (matchesAll (userQueryFilters pU))).Sublist
      (dbU.filter (matchesAll (userQueryFilters { pU with role := [] }))) ∧
    (dbU.filter (matchesAll (userQueryFilters pU))).Sublist
      (dbU.filter (matchesAll (userQueryFilters { pU with username := none }))) ∧
    (dbT.filter (matchesAll (taskQueryFilters pT))).Sublist
      (dbT.filter (matchesAll (taskQueryFilters { pT with status := [] }))) ∧
    (dbT.filter (matchesAll (taskQueryFilters pT))).Sublist
      (dbT.filter (matchesAll (taskQueryFilters { pT with priority := [] }))) ∧
    (dbT.filter (matchesAll (taskQueryFilters pT))).Sublist
      (dbT.filter (matchesAll (taskQueryFilters { pT with filter := none }))) ∧
    (dbA.filter (matchesAll (appQueryFilters pA))).Sublist
      (dbA.filter (matchesAll (appQueryFilters { pA with type := none }))) ∧
    (dbA.filter (matchesAll (appQueryFilters pA))).Sublist
      (dbA.filter (matchesAll (appQueryFilters { pA with filter := none }))) := by
  refine ⟨fun u => userMatches_iff pU u, fun t => taskMatches_iff pT t,
          fun a => appMatches_iff pA a, ?_, ?_, ?_, ?_, ?_, ?_, ?_, ?_⟩
  · refine List.monotone_filter_right _ (fun u hu => ?_)
    have h := (userMatches_iff pU u).mp hu
    exact (userMatches_iff _ u).mpr ⟨by simp, by simpa using h.2.1, by simpa using h.2.2⟩
  · refine List.monotone_filter_right _ (fun u hu => ?_)
    have h := (userMatches_iff pU u).mp hu
    exact (userMatches_iff _ u).mpr ⟨by simpa using h.1, by simp, by simpa using h.2.2⟩
  · refine List.monotone_filter_right _ (fun u hu => ?_)
    have h := (userMatches_iff pU u).mp hu
    exact (userMatches_iff _ u).mpr ⟨by simpa using h.1, by simpa using h.2.1, by simp⟩
  · refine List.monotone_filter_right _ (fun t ht => ?_)
    have h := (taskMatches_iff pT t).mp ht
    exact (taskMatches_iff _ t).mpr ⟨by simp, by simpa using h.2.1, by simpa using h.2.2⟩
  · refine List.monotone_filter_right _ (fun t ht => ?_)
    have h := (taskMatches_iff pT t).mp ht
    exact (taskMatches_iff _ t).mpr ⟨by simpa using h.1, by simp, by simpa using h.2.2⟩
  · refine List.monotone_filter_right _ (fun t ht => ?_)
    have h := (taskMatches_iff pT t).mp ht
    exact (taskMatches_iff _ t).mpr ⟨by simpa using h.1, by simpa using h.2.1, by simp⟩
  · refine List.monotone_filter_right _ (fun a ha => ?_)
    have h := (appMatches_iff pA a).mp ha
    exact (appMatches_iff _ a).mpr ⟨by simp, by simpa using h.2⟩
  · refine List.monotone_filter_right _ (fun a ha => ?_)
    have h := (appMatches_iff pA a).mp ha
    exact (appMatches_iff _ a).mpr ⟨by simpa using h.1, by simp⟩

/-- Witness for C7: the characterization evaluated at `sampleUser` for a
status-set plus case-insensitive username filter. -/
theorem filters_conjunctive_c7_witness :
    matchesAll (userQueryFilters
      { page := none, pageSize := none, status := ["active"], role := [],
        username := some "AD" }) sampleUser = true := by
  exact ((filters_conjunctive_c7 [sampleUser]
      { page := none, pageSize := none, status := ["active"], role := [],
        username := some "AD" }
      [] { page := none, pageSize := none, status := [], priority := [], filter := none }
      [] { type := none, filter := none }).1 sampleUser).mpr
    ⟨by decide, by decide, by decide⟩

/- ===================== C1: pagination ===================== -/

theorem totalPages_eq_ceil_nat (t ps : Nat) (h : 0 < ps) :
    t / ps + (if 0 < t % ps then 1 else 0) = (t + ps - 1) / ps := by
  obtain ⟨q, hq⟩ : ∃ q, t / ps = q := ⟨_, rfl⟩
  obtain ⟨r, hr⟩ : ∃ r, t % ps = r := ⟨_, rfl⟩
  have hmod : ps * q + r = t := by
    rw [← hq, ← hr]
    exact Nat.div_add_mod t ps
  have hrlt : r < ps := hr ▸ Nat.mod_lt _ h
  rw [hq, hr, ← hmod]
  rcases Nat.eq_zero_or_pos r with hr0 | hr0
  · subst hr0
    rw [if_neg (by omega)]
    have h1 : ps * q + 0 + ps - 1 = ps * q + (ps - 1) := by
      generalize ps * q = A
      omega
    rw [h1, Nat.mul_add_div h, Nat.div_eq_of_lt (by omega)]
  · rw [if_pos hr0]
    have h1 : ps * q + r + ps - 1 = ps * (q + 1) + (r - 1) := by
      rw [Nat.mul_succ]
      generalize ps * q = A
      omega
    rw [h1, Nat.mul_add_div h, Nat.div_eq_of_lt (by omega)]

theorem totalPages_int_eq (n : Nat) (ps : Int) (h : 0 < ps) :
    (n : Int).tdiv ps + (if 0 < (n : Int).tmod ps then 1 else 0) =
      ((n + ps.toNat - 1) / ps.toNat : Nat) := by
  obtain ⟨m, rfl⟩ : ∃ m : Nat, ps = (m : Int) := ⟨ps.toNat, (Int.toNat_of_nonneg h.le).symm⟩
  have hm : 0 < m := by exact_mod_cast h
  rw [← Int.ofNat_tdiv, ← Int.ofNat_tmod, Int.toNat_natCast]
  have hnat := totalPages_eq_ceil_nat n m hm
  by_cases hmod : 0 < n % m
  · rw [if_pos hmod] at hnat
    rw [if_pos (by exact_mod_cast hmod)]
    exact_mod_cast hnat
  · rw [if_neg hmod] at hnat
    rw [if_neg (by exact_mod_cast hmod)]
    exact_mod_cast hnat

/-- C1: for user and task list requests with a positive effective page
size (page defaulting to 1 and page size to 10 when absent): the page of
data is taken from the filtered rows with offset `(page-1)*pageSize` and
limit `pageSize`, the metadata satisfies
`totalPages = ceil(total / pageSize)` (as `(total + pageSize - 1) / pageSize`),
the data slice holds at most `pageSize` rows, and an absent page or
page-size behaves exactly like supplying the default. -/
theorem list_pagination_c1 (dbU : List UserRow) (pU : ListUsersParams)
    (dbT : List TaskRow) (pT : ListTasksParams)
    (hU : 0 < optOr pU.pageSize 10) (hT : 0 < optOr pT.pageSize 10) :
    ∃ ru rt, listUsers dbU pU = some ru ∧ listTasks dbT pT = some rt ∧
      ru.meta.page = optOr pU.page 1 ∧
      ru.meta.pageSize = optOr pU.pageSize 10 ∧
      ru.meta.total = ((dbU.filter (matchesAll (userQueryFilters pU))).length : Int) ∧
      ru.data = (applyOffsetLimit (dbU.filter (matchesAll (userQueryFilters pU)))
          ((optOr pU.page 1 - 1) * optOr pU.pageSize 10)
          (optOr pU.pageSize 10)).map userToAPI ∧
      ru.meta.totalPages =
        ((ru.meta.total.toNat + (optOr pU.pageSize 10).toNat - 1) /
          (optOr pU.pageSize 10).toNat : Nat) ∧
      ru.data.length ≤ (optOr pU.pageSize 10).toNat ∧
      listUsers dbU { pU with page := none } = listUsers dbU { pU with page := some 1 } ∧
      listUsers dbU { pU with pageSize := none } =
        listUsers dbU { pU with pageSize := some 10 } ∧
      rt.meta.page = optOr pT.page 1 ∧
      rt.meta.pageSize = optOr pT.pageSize 10 ∧
      rt.meta.total = ((dbT.filter (matchesAll (taskQueryFilters pT))).length : Int) ∧
      rt.data = (applyOffsetLimit
          (sortByBool createdDescLe (dbT.filter (matchesAll (taskQueryFilters pT))))
          ((optOr pT.page 1 - 1) * optOr pT.pageSize 10)
          (optOr pT.pageSize 10)).map taskToAPI ∧
      rt.meta.totalPages =
        ((rt.meta.total.toNat + (optOr pT.pageSize 10).toNat - 1) /
          (optOr pT.pageSize 10).toNat : Nat) ∧
      rt.data.length ≤ (optOr pT.pageSize 10).toNat ∧
      listTasks dbT { pT with page := none } = listTasks dbT { pT with page := some 1 } ∧
      listTasks dbT { pT with pageSize := none } =
        listTasks dbT { pT with pageSize := some 10 } := by
  have hu : listUsers dbU pU = some
      { data := (applyOffsetLimit (dbU.filter (matchesAll (userQueryFilters pU)))
          ((optOr pU.page 1 - 1) * optOr pU.pageSize 10)
          (optOr pU.pageSize 10)).map userToAPI
        meta := { page := optOr pU.page 1
                  pageSize := optOr pU.pageSize 10
                  total := ((dbU.filter (matchesAll (userQueryFilters pU))).length : Int)
                  totalPages :=
                    ((dbU.filter (matchesAll (userQueryFilters pU))).length : Int).tdiv
                        (optOr pU.pageSize 10) +
                      (if 0 < ((dbU.filter (matchesAll (userQueryFilters pU))).length :
                          Int).tmod (optOr pU.pageSize 10) then 1 else 0) } } := by
    simp only [listUsers]
    rw [if_neg (by omega)]
  have ht : listTasks dbT pT = some
      { data := (applyOffsetLimit
          (sortByBool createdDescLe (dbT.filter (matchesAll (taskQueryFilters pT))))
          ((optOr pT.page 1 - 1) * optOr pT.pageSize 10)
          (optOr pT.pageSize 10)).map taskToAPI
        meta := { page := optOr pT.page 1
                  pageSize := optOr pT.pageSize 10
                  total := ((dbT.filter (matchesAll (taskQueryFilters pT))).length : Int)
                  totalPages :=
                    ((dbT.filter (matchesAll (taskQueryFilters pT))).length : Int).tdiv
                        (optOr pT.pageSize 10) +
                      (if 0 < ((dbT.filter (matchesAll (taskQueryFilters pT))).length :
                          Int).tmod (optOr pT.pageSize 10) then 1 else 0) } } := by
    simp only [listTasks]
    rw [if_neg (by omega)]
  refine ⟨_, _, hu, ht, rfl, rfl, rfl, rfl, ?_, ?_, ?_, ?_, rfl, rfl, rfl, rfl, ?_, ?_, ?_, ?_⟩
  · show ((dbU.filter (matchesAll (userQueryFilters pU))).length : Int).tdiv
        (optOr pU.pageSize 10) +
      (if 0 < ((dbU.filter (matchesAll (userQueryFilters pU))).length : Int).tmod
          (optOr pU.pageSize 10) then 1 else 0) =
      (((((dbU.filter (matchesAll (userQueryFilters pU))).length : Int)).toNat +
          (optOr pU.pageSize 10).toNat - 1) / (optOr pU.pageSize 10).toNat : Nat)
    rw [Int.toNat_natCast]
    exact totalPages_int_eq _ _ hU
  · show ((applyOffsetLimit (dbU.filter (matchesAll (userQueryFilters pU)))
        ((optOr pU.page 1 - 1) * optOr pU.pageSize 10)
        (optOr pU.pageSize 10)).map userToAPI).length ≤ (optOr pU.pageSize 10).toNat
    rw [List.length_map]
    exact applyOffsetLimit_length_le _ _ _ hU.le
  · rfl
  · rfl
  · show ((dbT.filter (matchesAll (taskQueryFilters pT))).length : Int).tdiv
        (optOr pT.pageSize 10) +
      (if 0 < ((dbT.filter (matchesAll (taskQueryFilters pT))).length : Int).tmod
          (optOr pT.pageSize 10) then 1 else 0) =
      (((((dbT.filter (matchesAll (taskQueryFilters pT))).length : Int)).toNat +
          (optOr pT.pageSize 10).toNat - 1) / (optOr pT.pageSize 10).toNat : Nat)
    rw [Int.toNat_natCast]
    exact totalPages_int_eq _ _ hT
  · show ((applyOffsetLimit
        (sortByBool createdDescLe (dbT.filter (matchesAll (taskQueryFilters pT))))
        ((optOr pT.page 1 - 1) * optOr pT.pageSize 10)
        (optOr pT.pageSize 10)).map taskToAPI).length ≤ (optOr pT.pageSize 10).toNat
    rw [List.length_map]
    exact applyOffsetLimit_length_le _ _ _ hT.le
  · rfl
  · rfl

/-- Witness for C1 on a concrete one-row store with default pagination. -/
theorem list_pagination_c1_witness :
    (0 : Int) < optOr none 10 ∧
    (∃ r, listUsers [sampleUser]
        { page := none, pageSize := none, status := [], role := [], username := none } =
          some r ∧ r.meta.totalPages = 1 ∧ r.data.length = 1) := by
  have h := list_pagination_c1 [sampleUser]
    { page := none, pageSize := none, status := [], role := [], username := none }
    [] { page := none, pageSize := none, status := [], priority := [], filter := none }
    (by decide) (by decide)
  obtain ⟨ru, rt, hu, -, -, -, -, -, -, -, -, -, -⟩ := h
  refine ⟨by decide, ru, hu, ?_, ?_⟩
  · have : ru = { data := [userToAPI sampleUser],
                  meta := { page := 1, pageSize := 10, total := 1, totalPages := 1 } } := by
      have := hu
      rw [show listUsers [sampleUser]
          { page := none, pageSize := none, status := [], role := [], username := none } =
          some { data := [userToAPI sampleUser],
                 meta := { page := 1, pageSize := 10, total := 1, totalPages := 1 } }
        from by decide] at this
      injection this with this
      exact this.symm
    rw [this]
  · have : ru = { data := [userToAPI sampleUser],
                  meta := { page := 1, pageSize := 10, total := 1, totalPages := 1 } } := by
      have := hu
      rw [show listUsers [sampleUser]
          { page := none, pageSize := none, status := [], role := [], username := none } =
          some { data := [userToAPI sampleUser],
                 meta := { page := 1, pageSize := 10, total := 1, totalPages := 1 } }
        from by decide] at this
      injection this with this
      exact this.symm
    rw [this]
    rfl
